import Mathlib

/-!
Shallow embedding of `src/app.py`, a Streamlit dashboard for monitoring
rented devices.  The program builds a fixed in-memory table of four device
records (`generate_sample_data`), adds a derived ROI column
(`calculate_roi`), and renders four read-only views (`main`): overview
metrics, ROI charts, a category-filtered inventory table with a cosmetic
status-update button, and lease-expiration tracking with a per-category
summary.

Modelling conventions:
* a pandas DataFrame row becomes a `DeviceRecord` structure; the DataFrame
  is a `List` of rows, preserving order;
* Python `datetime` dates become a `Date` structure (year, month, day) with
  a day-number conversion (`Date.toDays`, the standard civil-calendar
  algorithm) so that date subtraction in integer days and chronological
  min/max can be expressed;
* the wall clock `datetime.now()` is modelled as an integer day-number
  parameter threaded through every render pass; the builder receives it too
  (it is the only ambient input available to the source function) and, like
  the source, ignores it;
* NumPy float division in the ROI formula is modelled by `NpFloat`: a
  nonzero divisor yields the exact rational value, a zero divisor yields
  the IEEE-754 special values that NumPy produces (positive numerator gives
  positive infinity, negative gives negative infinity, zero gives NaN);
* Streamlit widget state (filter selection, selected device, selected new
  status, whether the update button was clicked) becomes explicit
  parameters of the render function `renderDashboard`, whose result is a
  `Dashboard` structure holding every displayed value the claims mention.
-/

namespace MvpStadistics

/-- A calendar date (`datetime(year, month, day)` in the source). -/
structure Date where
  year : Nat
  month : Nat
  day : Nat
deriving DecidableEq

/-- Day number of a civil date (days since 1970-01-01), via the standard
civil-calendar conversion.  Mirrors how `datetime` subtraction yields a
timedelta measured in days. -/
def Date.toDays (d : Date) : Int :=
  let y : Int := if d.month ≤ 2 then (d.year : Int) - 1 else (d.year : Int)
  let m : Int := (d.month : Int)
  let era : Int := (if 0 ≤ y then y else y - 399) / 400
  let yoe : Int := y - era * 400
  let doy : Int := (153 * ((m + 9) % 12) + 2) / 5 + (d.day : Int) - 1
  let doe : Int := yoe * 365 + yoe / 4 - yoe / 100 + doy
  era * 146097 + doe - 719468

/-- One row of the device table, with the source field names
(`generate_sample_data` builds dictionaries with these keys). -/
structure DeviceRecord where
  device_id : String
  tipo : String
  model : String
  total_copies : Nat
  costo_mantenimiento : Int
  ingreso_arrendamiento : Int
  inicio_arrendamiento : Date
  final_arrendamiento : Date
  status : String
  cliente : String
deriving DecidableEq

/-- A NumPy float64 value as produced by the ROI division: either an exact
finite rational, or one of the special values infinity / negative infinity /
NaN that NumPy yields on division by zero. -/
inductive NpFloat where
  | fin (q : ℚ)
  | posInf
  | negInf
  | nan
deriving DecidableEq

/-- `generate_sample_data` from `src/app.py` lines 8-59: the fixed list of
four device dictionaries turned into a DataFrame.  The parameter is the
ambient wall-clock day number (the only external input a call could observe);
the source reads no external input, so the parameter is unused. -/
def generate_sample_data (_now : Int) : List DeviceRecord :=
  [ { device_id := "P001"
    , tipo := "Impresora"
    , model := "HP LaserJet"
    , total_copies := 15000
    , costo_mantenimiento := 500
    , ingreso_arrendamiento := 2000
    , inicio_arrendamiento := ⟨2024, 1, 1⟩
    , final_arrendamiento := ⟨2024, 12, 31⟩
    , status := "Activo"
    , cliente := "Compañía A" }
  , { device_id := "P002"
    , tipo := "Impresora"
    , model := "Canon ImageRUNNER"
    , total_copies := 22000
    , costo_mantenimiento := 750
    , ingreso_arrendamiento := 2500
    , inicio_arrendamiento := ⟨2024, 2, 15⟩
    , final_arrendamiento := ⟨2024, 11, 15⟩
    , status := "Activo"
    , cliente := "Compañía B" }
  , { device_id := "C001"
    , tipo := "Computadora"
    , model := "Dell Latitude"
    , total_copies := 0
    , costo_mantenimiento := 300
    , ingreso_arrendamiento := 1500
    , inicio_arrendamiento := ⟨2024, 3, 1⟩
    , final_arrendamiento := ⟨2024, 12, 31⟩
    , status := "Activo"
    , cliente := "Compañía C" }
  , { device_id := "C002"
    , tipo := "Computadora"
    , model := "MacBook Pro"
    , total_copies := 0
    , costo_mantenimiento := 450
    , ingreso_arrendamiento := 1800
    , inicio_arrendamiento := ⟨2024, 1, 15⟩
    , final_arrendamiento := ⟨2024, 10, 15⟩
    , status := "Mantenimiento"
    , cliente := "Compañía D" } ]

/-- The ROI value of one record: `src/app.py` line 63,
`(df['ingreso_arrendamiento'] - df['costo_mantenimiento']) / df['costo_mantenimiento'] * 100`.
The division is NumPy float division: with a nonzero divisor the value is
the exact rational; with a zero divisor NumPy silently produces the IEEE
special value determined by the sign of the numerator. -/
def roiOf (r : DeviceRecord) : NpFloat :=
  let num : Int := r.ingreso_arrendamiento - r.costo_mantenimiento
  if r.costo_mantenimiento = 0 then
    if 0 < num then NpFloat.posInf
    else if num < 0 then NpFloat.negInf
    else NpFloat.nan
  else
    NpFloat.fin (((num : ℚ) / (r.costo_mantenimiento : ℚ)) * 100)

/-- A row of the table after `calculate_roi`: the original record together
with its `roi` column. -/
abbrev Row : Type := DeviceRecord × NpFloat

/-- `calculate_roi` from `src/app.py` lines 62-64: assigns the `roi` column
to every row of the DataFrame and returns the DataFrame. -/
def calculate_roi (df : List DeviceRecord) : List Row :=
  df.map (fun r => (r, roiOf r))

/-- `len(df[df['status'] == 'Active'])`, `src/app.py` line 98: the
"Dispositivos activos" metric of the Overview tab. -/
def dispositivosActivos (rows : List Row) : Nat :=
  (rows.filter (fun p => p.fst.status == "Active")).length

/-- `df['ingreso_arrendamiento'].sum()`, `src/app.py` line 94: the
"Ingreso mensual total" metric of the Overview tab. -/
def ingresoMensualTotal (rows : List Row) : Int :=
  (rows.map (fun p => p.fst.ingreso_arrendamiento)).sum

/-- `df['costo_mantenimiento'].sum()`, `src/app.py` line 96: the
"Costo de mantenimiento total" metric of the Overview tab. -/
def costoMantenimientoTotal (rows : List Row) : Int :=
  (rows.map (fun p => p.fst.costo_mantenimiento)).sum

/-- `df[df['tipo'].isin(device_tipo_filter)]`, `src/app.py` line 151: the
Inventory tab table filtered by the multiselect selection. -/
def filterByTipo (rows : List Row) (sel : List String) : List Row :=
  rows.filter (fun p => decide (p.fst.tipo ∈ sel))

/-- The status-update button, `src/app.py` lines 160-161: when clicked it
emits `st.success(f"Estado de {device_select} actualizado a {new_status}")`
and does nothing else. -/
def updateMessageOf (clicked : Bool) (deviceSelect newStatus : String) :
    Option String :=
  if clicked then
    some ("Estado de " ++ deviceSelect ++ " actualizado a " ++ newStatus)
  else
    none

/-- `(df['final_arrendamiento'] - current_date).dt.days`, `src/app.py`
line 170: days from the evaluation day to the lease end, possibly
negative. -/
def diasParaVencimiento (p : Row) (now : Int) : Int :=
  p.fst.final_arrendamiento.toDays - now

/-- The table rows paired with their `dias_para_vencimiento` column
(`src/app.py` line 170 mutates the DataFrame to add the column). -/
def withDias (rows : List Row) (now : Int) : List (Row × Int) :=
  rows.map (fun p => (p, diasParaVencimiento p now))

/-- `expiring_soon = df[df['dias_para_vencimiento'] <= 60]`, `src/app.py`
line 172. -/
def expiringSoon (rows : List Row) (now : Int) : List (Row × Int) :=
  (withDias rows now).filter (fun q => decide (q.snd ≤ 60))

/-- Chronological minimum of a list of dates (pandas `min` aggregation on a
datetime column); `none` on an empty group. -/
def minDate (l : List Date) : Option Date :=
  l.foldl
    (fun acc d =>
      match acc with
      | none => some d
      | some a => if d.toDays < a.toDays then some d else some a)
    none

/-- Chronological maximum of a list of dates (pandas `max` aggregation on a
datetime column); `none` on an empty group. -/
def maxDate (l : List Date) : Option Date :=
  l.foldl
    (fun acc d =>
      match acc with
      | none => some d
      | some a => if a.toDays < d.toDays then some d else some a)
    none

/-- One row of the lease summary table, `src/app.py` lines 181-186:
`df.groupby('tipo').agg` with count of `device_id`, sum of
`ingreso_arrendamiento`, min of `inicio_arrendamiento`, max of
`final_arrendamiento`. -/
structure SummaryRow where
  tipo : String
  device_count : Nat
  ingreso_sum : Int
  inicio_min : Option Date
  final_max : Option Date
deriving DecidableEq

/-- The aggregated summary row of one `tipo` group (`src/app.py` lines
181-186). -/
def summaryFor (rows : List Row) (t : String) : SummaryRow :=
  let g := rows.filter (fun p => p.fst.tipo == t)
  { tipo := t
  , device_count := g.length
  , ingreso_sum := (g.map (fun p => p.fst.ingreso_arrendamiento)).sum
  , inicio_min := minDate (g.map (fun p => p.fst.inicio_arrendamiento))
  , final_max := maxDate (g.map (fun p => p.fst.final_arrendamiento)) }

/-- The full `lease_summary` table: one aggregated row per distinct `tipo`
value of the table. -/
def leaseSummary (rows : List Row) : List SummaryRow :=
  ((rows.map (fun p => p.fst.tipo)).dedup).map (summaryFor rows)

/-- Everything one render pass of `main` displays that the claims mention. -/
structure Dashboard where
  rows : List Row
  totalDispositivos : Nat
  ingresoTotal : Int
  costoTotal : Int
  activos : Nat
  filteredTable : List Row
  updateMessage : Option String
  expiring : List (Row × Int)
  summary : List SummaryRow
deriving DecidableEq

/-- One render pass of `main`, `src/app.py` lines 67-187, as a pure
function of the wall-clock day number and the widget state: the multiselect
selection `sel`, the selected device `deviceSelect`, the selected new status
`newStatus`, and whether the update button was `clicked`.  Each pass rebuilds
the dataset from `generate_sample_data` and recomputes every displayed
value. -/
def renderDashboard (now : Int) (sel : List String)
    (deviceSelect newStatus : String) (clicked : Bool) : Dashboard :=
  let rows := calculate_roi (generate_sample_data now)
  { rows := rows
  , totalDispositivos := rows.length
  , ingresoTotal := ingresoMensualTotal rows
  , costoTotal := costoMantenimientoTotal rows
  , activos := dispositivosActivos rows
  , filteredTable := filterByTipo rows sel
  , updateMessage := updateMessageOf clicked deviceSelect newStatus
  , expiring := expiringSoon rows now
  , summary := leaseSummary rows }

/-! Concrete fixtures shared by several witnesses. -/

/-- The first sample record (device P001). -/
def rec0 : DeviceRecord :=
  { device_id := "P001"
  , tipo := "Impresora"
  , model := "HP LaserJet"
  , total_copies := 15000
  , costo_mantenimiento := 500
  , ingreso_arrendamiento := 2000
  , inicio_arrendamiento := ⟨2024, 1, 1⟩
  , final_arrendamiento := ⟨2024, 12, 31⟩
  , status := "Activo"
  , cliente := "Compañía A" }

/-- The first row of the processed sample table. -/
def row0 : Row := (rec0, roiOf rec0)

/-- The processed sample table at wall-clock day 0. -/
def sampleRows : List Row := calculate_roi (generate_sample_data 0)

/-- An evaluation day exactly 60 days before the lease end of device P001:
the boundary case of the expiring-soon filter. -/
def n0 : Int := Date.toDays ⟨2024, 12, 31⟩ - 60

/-- A hypothetical record with `maintenance_cost = 0`, the degenerate input
of the ROI formula. -/
def zeroCostRecord : DeviceRecord :=
  { device_id := "P999"
  , tipo := "Impresora"
  , model := "Test"
  , total_copies := 0
  , costo_mantenimiento := 0
  , ingreso_arrendamiento := 100
  , inicio_arrendamiento := ⟨2024, 1, 1⟩
  , final_arrendamiento := ⟨2024, 12, 31⟩
  , status := "Activo"
  , cliente := "X" }

/-- Claim C1: `calculate_roi` keeps every input record in order (one output
row per input record, original records recoverable in order), and every
record with positive `costo_mantenimiento` is assigned the `roi` value
`(ingreso_arrendamiento - costo_mantenimiento) / costo_mantenimiento * 100`. -/
theorem roi_assignment_spec (df : List DeviceRecord) :
    (calculate_roi df).map Prod.fst = df ∧
    (calculate_roi df).length = df.length ∧
    ∀ p ∈ calculate_roi df, 0 < p.fst.costo_mantenimiento →
      p.snd = NpFloat.fin
        (((p.fst.ingreso_arrendamiento - p.fst.costo_mantenimiento : Int) : ℚ)
          / (p.fst.costo_mantenimiento : ℚ) * 100) := by
  refine ⟨?_, ?_, ?_⟩
  · show List.map Prod.fst (List.map (fun r => (r, roiOf r)) df) = df
    rw [List.map_map]
    exact List.map_id' df
  · simp [calculate_roi]
  · intro p hp hpos
    obtain ⟨r, hr, rfl⟩ := List.mem_map.mp hp
    have h0 : r.costo_mantenimiento ≠ 0 := by
      have hpos2 : (0 : Int) < r.costo_mantenimiento := hpos
      omega
    show roiOf r = _
    simp [roiOf, h0]

/-- Witness for claim C1: on the sample dataset, order is preserved and the
first record (cost 500, income 2000) receives ROI exactly 300. -/
theorem roi_assignment_spec_witness :
    (calculate_roi (generate_sample_data 0)).map Prod.fst
        = generate_sample_data 0
    ∧ (0 : Int) < rec0.costo_mantenimiento
    ∧ roiOf rec0 = NpFloat.fin 300 := by
  have h := roi_assignment_spec (generate_sample_data 0)
  refine ⟨h.1, by decide, ?_⟩
  have h2 : roiOf rec0 = NpFloat.fin
      (((rec0.ingreso_arrendamiento - rec0.costo_mantenimiento : Int) : ℚ)
        / (rec0.costo_mantenimiento : ℚ) * 100) :=
    h.2.2 (rec0, roiOf rec0) (List.Mem.head _) (by decide)
  rw [h2]
  norm_num [rec0]

/-- Claim C2: the Overview active-device metric counts the records whose
`status` is the English literal "Active" by case-sensitive exact match, and
since the sample dataset stores the localized literals "Activo" and
"Mantenimiento", the displayed count is 0 for every render pass. -/
theorem overview_active_count_zero (now : Int) (sel : List String)
    (ds ns : String) (c : Bool) :
    (renderDashboard now sel ds ns c).activos
        = ((renderDashboard now sel ds ns c).rows.filter
            (fun p => p.fst.status == "Active")).length
    ∧ (renderDashboard now sel ds ns c).activos = 0 :=
  ⟨rfl, rfl⟩

/-- Claim C3: a row of the table appears in the expiring-soon set of an
evaluation day if and only if its `dias_para_vencimiento` (lease end minus
evaluation day, in integer days, possibly negative) is at most 60. -/
theorem expiring_soon_iff (rows : List Row) (now : Int) (p : Row)
    (hp : p ∈ rows) :
    (p, diasParaVencimiento p now) ∈ expiringSoon rows now
      ↔ diasParaVencimiento p now ≤ 60 := by
  unfold expiringSoon withDias
  rw [List.mem_filter]
  simp only [decide_eq_true_eq]
  constructor
  · rintro ⟨-, h⟩
    exact h
  · intro h
    exact ⟨List.mem_map.mpr ⟨p, hp, rfl⟩, h⟩

/-- Witness for claim C3, at the boundary: evaluated 60 days before the
lease end of device P001, that row has `dias_para_vencimiento = 60` and is
included in the expiring-soon set. -/
theorem expiring_soon_iff_witness :
    diasParaVencimiento row0 n0 = 60
    ∧ (row0, diasParaVencimiento row0 n0) ∈ expiringSoon sampleRows n0 := by
  refine ⟨by decide, ?_⟩
  exact (expiring_soon_iff sampleRows n0 row0 (List.Mem.head _)).mpr (by decide)

/-- Claim C4: the Inventory filter keeps exactly the rows whose `tipo` is a
member of the selected subset, and no others. -/
theorem inventory_filter_exact (rows : List Row) (sel : List String)
    (p : Row) :
    p ∈ filterByTipo rows sel ↔ p ∈ rows ∧ p.fst.tipo ∈ sel := by
  unfold filterByTipo
  rw [List.mem_filter]
  simp

/-- Claim C5: on the sample dataset the per-category lease summary gives,
for the printer category ("Impresora"), device count 2, income sum 4500,
earliest lease start 2024-01-01 and latest lease end 2024-12-31; this row is
one of the rows of the displayed summary table. -/
theorem printer_summary_row (now : Int) (sel : List String)
    (ds ns : String) (c : Bool) :
    summaryFor (renderDashboard now sel ds ns c).rows "Impresora"
        = { tipo := "Impresora", device_count := 2, ingreso_sum := 4500
          , inicio_min := some ⟨2024, 1, 1⟩
          , final_max := some ⟨2024, 12, 31⟩ }
    ∧ summaryFor (renderDashboard now sel ds ns c).rows "Impresora"
        ∈ (renderDashboard now sel ds ns c).summary := by
  refine ⟨rfl, ?_⟩
  exact List.Mem.head _

/-- Claim C6: clicking the status-update button with a valid device id and a
valid new status emits the confirmation message, while the dataset read by
any later render pass is exactly the freshly built sample records — no
record field, in particular no `status`, has changed. -/
theorem status_update_no_mutation (now next : Int) (sel sel2 : List String)
    (id ns ds2 ns2 : String) (c2 : Bool)
    (hid : id ∈ (generate_sample_data now).map (fun r => r.device_id))
    (hns : ns ∈ ["Activo", "Mantenimiento", "Inactivo"]) :
    (renderDashboard now sel id ns true).updateMessage
        = some ("Estado de " ++ id ++ " actualizado a " ++ ns)
    ∧ (renderDashboard next sel2 ds2 ns2 c2).rows.map Prod.fst
        = generate_sample_data next := by
  refine ⟨rfl, ?_⟩
  show List.map Prod.fst
      (List.map (fun r => (r, roiOf r)) (generate_sample_data next))
      = generate_sample_data next
  rw [List.map_map]
  exact List.map_id' _

/-- Witness for claim C6: clicking for device P001 with new status "Activo"
emits the confirmation, and the next pass reads the unchanged sample
records. -/
theorem status_update_no_mutation_witness :
    (renderDashboard 0 [] "P001" "Activo" true).updateMessage
        = some "Estado de P001 actualizado a Activo"
    ∧ (renderDashboard 1 [] "P001" "Activo" true).rows.map Prod.fst
        = generate_sample_data 1 := by
  have h := status_update_no_mutation 0 1 [] [] "P001" "Activo" "P001"
    "Activo" true (by decide) (by decide)
  refine ⟨?_, h.2⟩
  rw [h.1]
  rfl

/-- Claim C7: the Dataset Builder is deterministic — two invocations at any
two ambient times return identical record sequences. -/
theorem builder_deterministic (t1 t2 : Int) :
    generate_sample_data t1 = generate_sample_data t2 := rfl

/-- Claim C8 (code behavior at the failing input): on a record with
`costo_mantenimiento = 0` and positive income, `calculate_roi` silently
assigns the ROI value positive infinity — no error and no `None`; the
infinite value flows into the chart data. -/
theorem roi_zero_cost_posinf :
    zeroCostRecord.costo_mantenimiento = 0
    ∧ calculate_roi [zeroCostRecord] = [(zeroCostRecord, NpFloat.posInf)] := by
  decide

/-- Claim C9: the income total displayed by the Overview equals the sum of
`ingreso_arrendamiento` over all records of the built dataset, whatever the
Inventory filter selection and the rest of the widget state. -/
theorem overview_income_sum_unfiltered (now : Int) (sel : List String)
    (ds ns : String) (c : Bool) :
    (renderDashboard now sel ds ns c).ingresoTotal
        = ((generate_sample_data now).map
            (fun r => r.ingreso_arrendamiento)).sum
    ∧ (renderDashboard now sel ds ns c).ingresoTotal = 7800 :=
  ⟨rfl, rfl⟩

/-- Claim C10: the `device_id` values of the built sample dataset are
pairwise distinct. -/
theorem device_ids_nodup (t : Int) :
    ((generate_sample_data t).map (fun r => r.device_id)).Nodup := by
  have h : generate_sample_data t = generate_sample_data 0 := rfl
  rw [h]
  decide

end MvpStadistics
